import Mathlib

/-!
Expo-Clerk_Setup: the authentication screens.

A shallow embedding of the event handlers, effects and render guards of the
screens under `src/app`.  Every handler is an `async` JavaScript function whose
only interaction with the outside world is through the identity provider, the
router, `Alert.alert`, `console.error` and React state setters.  A handler is
embedded as a function from the screen state it closes over and the outcomes
of the provider calls it awaits to the list of effects it performs, in program
order.  The verification screen's resend cooldown is embedded as a step
function over the screen state.

The objects the hooks hand out (`signIn`, `signUp`, `resetPassword`,
`setActive`, `startOAuthFlow`) are taken as present whenever a handler runs.
An effect `call c` records that the handler evaluates the call expression `c`;
whatever makes the awaited expression throw is the outcome `rejected`.
-/

namespace ExpoClerk

/-! ## JavaScript values -/

/-- Length of a JavaScript string: the number of UTF-16 code units, two for
every code point outside the basic multilingual plane. -/
def jsLength (s : String) : Nat :=
  (s.data.map (fun c => if c.toNat < 0x10000 then 1 else 2)).sum

/-- Truthiness of a JavaScript string: every string but the empty one. -/
def truthy (s : String) : Bool :=
  s != ""

/-- Truthiness of a value that is `undefined`/`null` (`none`) or a string. -/
def truthyOpt : Option String → Bool
  | none => false
  | some s => truthy s

/-- The value caught by a `catch (err)` clause.  `errors` is `err.errors`
(`none` when the property is absent), an array whose entries carry an optional
`message`; `code` is `err.code`. -/
structure JSError where
  errors : Option (List (Option String))
  code : Option String
  deriving DecidableEq

/-- The settled state of an awaited promise. -/
inductive Outcome (α : Type) where
  | resolved (value : α)
  | rejected (err : JSError)
  deriving DecidableEq

/-- The expression `err.errors?.[0]?.message`. -/
def firstErrorMessage (err : JSError) : Option String :=
  match err.errors with
  | none => none
  | some [] => none
  | some (entry :: _) => entry

/-- The expression `err.errors?.[0]?.message || fallback`. -/
def messageOr (err : JSError) (fallback : String) : String :=
  match firstErrorMessage err with
  | some m => if truthy m then m else fallback
  | none => fallback

/-! ## Effects -/

/-- The provider operations the screens call. -/
inductive ProviderCall where
  | signInCreate (identifier password : String)
  | signUpCreate (emailAddress password : String)
  | prepareEmailAddressVerification (strategy : String)
  | attemptEmailAddressVerification (code : String)
  | resetPasswordCreate (identifier : String)
  | attemptResetPassword (code password : String)
  | startOAuthFlow (strategy : String)
  | setActive (session : Option String)
  | signOut
  deriving DecidableEq

/-- The two router methods in use. -/
inductive NavKind where
  | push
  | replace
  deriving DecidableEq

/-- One observable effect of a handler. -/
inductive Effect where
  | alert (title message : String)
  | consoleError (label : String)
  | call (c : ProviderCall)
  | navigate (kind : NavKind) (pathname : String) (params : List (String × String))
  | setLoading (b : Bool)
  | setAuthLoading (b : Bool)
  | setResendDisabled (b : Bool)
  | setPasswordReset (b : Bool)
  | setEmailSent (b : Bool)
  | setTimeout (ms : Nat) (kind : NavKind) (pathname : String)
  deriving DecidableEq

/-- The alerts of a trace, in order. -/
def alerts : List Effect → List (String × String)
  | [] => []
  | .alert t m :: es => (t, m) :: alerts es
  | _ :: es => alerts es

/-- The provider calls of a trace, in order. -/
def calls : List Effect → List ProviderCall
  | [] => []
  | .call c :: es => c :: calls es
  | _ :: es => calls es

/-- The immediate navigations of a trace, in order. -/
def navigations : List Effect → List (NavKind × String × List (String × String))
  | [] => []
  | .navigate k p ps :: es => (k, p, ps) :: navigations es
  | _ :: es => navigations es

/-- The value of the `loading` flag after a trace, from its value before. -/
def loadingAfter (loading : Bool) : List Effect → Bool
  | [] => loading
  | .setLoading b :: es => loadingAfter b es
  | _ :: es => loadingAfter loading es

/-- The value of `resendDisabled` after a trace, from its value before. -/
def resendDisabledAfter (disabled : Bool) : List Effect → Bool
  | [] => disabled
  | .setResendDisabled b :: es => resendDisabledAfter b es
  | _ :: es => resendDisabledAfter disabled es

/-! ## Sign-in screen (`src/app/(auth)/sign-in.js`) -/

/-- The payload of `signIn.create` and of
`signUp.attemptEmailAddressVerification`, as far as the screens read it. -/
structure SessionResult where
  createdSessionId : Option String
  deriving DecidableEq

/-- The payload of `startOAuthFlow`, as far as the screens read it;
`cancelSignIn` is the truthiness of the field. -/
structure OAuthResult where
  createdSessionId : Option String
  cancelSignIn : Bool
  deriving DecidableEq

/-- The `catch` clause of `onSignInPress`. -/
def onSignInPressCatch (err : JSError) : List Effect :=
  [.consoleError "Sign in error:", .alert "Error" (messageOr err "Failed to sign in")]

/-- The handler `onSignInPress`: `create` is the outcome of `signIn.create`
and `activate` that of `setActive`, consulted only if the call is reached. -/
def onSignInPress (email password : String)
    (create : Outcome SessionResult) (activate : Outcome Unit) : List Effect :=
  if !truthy email || !truthy password then
    [.alert "Error" "Please fill in all fields"]
  else
    [.setLoading true, .call (.signInCreate email password)]
    ++ (match create with
        | .resolved completeSignIn =>
          .call (.setActive completeSignIn.createdSessionId)
          :: (match activate with
              | .resolved _ => [.navigate .replace "/(tabs)/home" []]
              | .rejected err => onSignInPressCatch err)
        | .rejected err => onSignInPressCatch err)
    ++ [.setLoading false]

/-! ## Sign-up screen (`src/app/(auth)/sign-up.js`) -/

/-- The `catch` clause of `onSignUpPress`. -/
def onSignUpPressCatch (err : JSError) : List Effect :=
  [.consoleError "Sign up error:", .alert "Error" (messageOr err "Failed to sign up")]

/-- The handler `onSignUpPress`: `create` is the outcome of `signUp.create`
and `prepare` that of `signUp.prepareEmailAddressVerification`, consulted only
if the call is reached. -/
def onSignUpPress (email password : String)
    (create : Outcome Unit) (prepare : Outcome Unit) : List Effect :=
  if !truthy email || !truthy password then
    [.alert "Error" "Please fill in all fields"]
  else if jsLength password < 8 then
    [.alert "Error" "Password must be at least 8 characters"]
  else
    [.setLoading true, .call (.signUpCreate email password)]
    ++ (match create with
        | .resolved _ =>
          .call (.prepareEmailAddressVerification "email_code")
          :: (match prepare with
              | .resolved _ => [.navigate .push "/verify-email" [("email", email)]]
              | .rejected err => onSignUpPressCatch err)
        | .rejected err => onSignUpPressCatch err)
    ++ [.setLoading false]

/-- The two keys of the table `{ google: googleAuth, apple: appleAuth }`. -/
inductive AuthStrategy where
  | google
  | apple
  deriving DecidableEq

/-- The key as the string the handler receives and concatenates. -/
def AuthStrategy.key : AuthStrategy → String
  | .google => "google"
  | .apple => "apple"

/-- The strategy the selected `startOAuthFlow` was created with by `useOAuth`. -/
def AuthStrategy.oauth : AuthStrategy → String
  | .google => "oauth_google"
  | .apple => "oauth_apple"

/-- The handler `onSelectAuth`: `flow` is the outcome of `selectedAuth()` and
`activate` that of `setActive`, consulted only if the call is reached. -/
def onSelectAuth (strategy : AuthStrategy)
    (flow : Outcome OAuthResult) (activate : Outcome Unit) : List Effect :=
  .call (.startOAuthFlow strategy.oauth)
  :: (match flow with
      | .resolved r =>
        if truthyOpt r.createdSessionId then
          .call (.setActive r.createdSessionId)
          :: (match activate with
              | .resolved _ => [.navigate .replace "/(tabs)/home" []]
              | .rejected _ =>
                [.consoleError "OAuth error:",
                 .alert "Error" ("Failed to sign in with " ++ strategy.key)])
        else []
      | .rejected _ =>
        [.consoleError "OAuth error:",
         .alert "Error" ("Failed to sign in with " ++ strategy.key)])

/-! ## Sign-in screen: OAuth handlers, mount effect and render guard -/

/-- The `catch` clause shared, up to the provider name in the message, by
`handleGoogleSignIn` and `handleAppleSignIn`. -/
def oauthSignInCatch (message : String) (err : JSError) : List Effect :=
  .consoleError "OAuth error"
  :: (if err.code != some "OAUTH_CALLBACK_ERROR" then [.alert "Error" message] else [])

/-- The body the two OAuth handlers of the sign-in screen share, up to the
strategy of the flow and the message of the alert. -/
def oauthSignIn (strategy message : String) (loading : Bool)
    (flow : Outcome OAuthResult) (activate : Outcome Unit) : List Effect :=
  if loading then []
  else
    [.setLoading true, .call (.startOAuthFlow strategy)]
    ++ (match flow with
        | .resolved r =>
          if r.cancelSignIn then []
          else if truthyOpt r.createdSessionId then
            .call (.setActive r.createdSessionId)
            :: (match activate with
                | .resolved _ => [.navigate .replace "/(tabs)/home" []]
                | .rejected err => oauthSignInCatch message err)
          else []
        | .rejected err => oauthSignInCatch message err)
    ++ [.setLoading false]

/-- The handler `handleGoogleSignIn`; `loading` is the flag it closes over. -/
def handleGoogleSignIn (loading : Bool)
    (flow : Outcome OAuthResult) (activate : Outcome Unit) : List Effect :=
  oauthSignIn "oauth_google" "Failed to sign in with Google" loading flow activate

/-- The handler `handleAppleSignIn`; `loading` is the flag it closes over. -/
def handleAppleSignIn (loading : Bool)
    (flow : Outcome OAuthResult) (activate : Outcome Unit) : List Effect :=
  oauthSignIn "oauth_apple" "Failed to sign in with Apple" loading flow activate

/-- What a component returns. -/
inductive View where
  | spinner
  | form
  | tabs
  deriving DecidableEq

/-- The effect of `SignInScreen` with dependencies `[isAuthLoaded, isSignedIn]`. -/
def signInRedirectEffect (isAuthLoaded isSignedIn : Bool) : List Effect :=
  if isAuthLoaded && isSignedIn then [.navigate .replace "/(tabs)/home" []]
  else if isAuthLoaded then [.setAuthLoading false]
  else []

/-- The value of `authLoading` after a trace, from its value before. -/
def authLoadingAfter (authLoading : Bool) : List Effect → Bool
  | [] => authLoading
  | .setAuthLoading b :: es => authLoadingAfter b es
  | _ :: es => authLoadingAfter authLoading es

/-- The render guard of `SignInScreen`. -/
def signInRender (authLoading isSignInLoaded isAuthLoaded : Bool) : View :=
  if authLoading || !isSignInLoaded || !isAuthLoaded then .spinner else .form

/-- The state `useState(true)` gives `authLoading` at mount. -/
def signInMountAuthLoading : Bool := true

/-! ## Tabs shell (`src/app/(tabs)/_layout.js`) -/

/-- The effect of `TabsLayout` with dependencies `[isSignedIn, isLoaded]`. -/
def tabsLayoutEffect (isLoaded isSignedIn : Bool) : List Effect :=
  if isLoaded && !isSignedIn then [.navigate .replace "/(auth)/sign-in" []] else []

/-- The render guard of `TabsLayout`. -/
def tabsLayoutRender (isLoaded isSignedIn : Bool) : View :=
  if !isLoaded || !isSignedIn then .spinner else .tabs

/-! ## Reset-password screen (`src/app/(auth)/reset-password.js`) -/

/-- The `catch` clause of `onResetPassword`. -/
def onResetPasswordCatch (err : JSError) : List Effect :=
  [.consoleError "Password reset error:",
   .alert "Error" (messageOr err "Failed to reset password")]

/-- The handler `onResetPassword`: `attempt` is the outcome of
`resetPassword.attemptResetPassword`, consulted only if the call is reached. -/
def onResetPassword (isLoaded : Bool) (code newPassword confirmPassword : String)
    (attempt : Outcome Unit) : List Effect :=
  if !truthy code || !truthy newPassword || !truthy confirmPassword then
    [.alert "Error" "Please fill in all fields"]
  else if newPassword != confirmPassword then
    [.alert "Error" "Passwords do not match"]
  else if jsLength newPassword < 8 then
    [.alert "Error" "Password must be at least 8 characters"]
  else if !isLoaded then
    []
  else
    [.setLoading true, .call (.attemptResetPassword code newPassword)]
    ++ (match attempt with
        | .resolved _ =>
          [.setPasswordReset true,
           .alert "Success" "Your password has been reset successfully",
           .setTimeout 2000 .replace "/(auth)/sign-in"]
        | .rejected err => onResetPasswordCatch err)
    ++ [.setLoading false]

/-! ## Verification screen (`src/app/(auth)/verify-email.js`) -/

/-- The `catch` clause of `onVerifyPress`. -/
def onVerifyPressCatch (err : JSError) : List Effect :=
  [.consoleError "Verification error:",
   .alert "Error" (messageOr err "Failed to verify email")]

/-- The handler `onVerifyPress`: `attempt` is the outcome of
`signUp.attemptEmailAddressVerification` and `activate` that of `setActive`,
consulted only if the call is reached. -/
def onVerifyPress (isLoaded : Bool) (code : String)
    (attempt : Outcome SessionResult) (activate : Outcome Unit) : List Effect :=
  if !truthy code then
    [.alert "Error" "Please enter the verification code"]
  else if !isLoaded then
    []
  else
    [.setLoading true, .call (.attemptEmailAddressVerification code)]
    ++ (match attempt with
        | .resolved completeSignUp =>
          .call (.setActive completeSignUp.createdSessionId)
          :: (match activate with
              | .resolved _ => [.navigate .replace "/(app)" []]
              | .rejected err => onVerifyPressCatch err)
        | .rejected err => onVerifyPressCatch err)
    ++ [.setLoading false]

/-- The part of `onResendCode` that runs before the `await` suspends it. -/
def onResendCodeBegin : List Effect :=
  [.setResendDisabled true, .call (.prepareEmailAddressVerification "email_code")]

/-- The part of `onResendCode` that runs once the awaited
`signUp.prepareEmailAddressVerification` has settled with `prepare`. -/
def onResendCodeSettle (prepare : Outcome Unit) : List Effect :=
  match prepare with
  | .resolved _ => [.alert "Success" "Verification code resent!"]
  | .rejected _ =>
    [.consoleError "Resend error:",
     .alert "Error" "Failed to resend verification code",
     .setResendDisabled false]

/-- The handler `onResendCode`, run to completion. -/
def onResendCode (isLoaded : Bool) (prepare : Outcome Unit) : List Effect :=
  if !isLoaded then [] else onResendCodeBegin ++ onResendCodeSettle prepare

/-- The state of the verification screen the resend path reads and writes:
the two `useState` cells, the provider's `isLoaded`, the number of resend
calls awaiting settlement and the effects performed so far. -/
structure VerifyState where
  isLoaded : Bool
  resendDisabled : Bool
  countdown : Int
  pending : Nat
  log : List Effect
  deriving DecidableEq

/-- The screen at mount: `useState(false)` and `useState(30)`. -/
def VerifyState.mount (isLoaded : Bool) : VerifyState :=
  { isLoaded := isLoaded, resendDisabled := false, countdown := 30, pending := 0, log := [] }

/-- Performs a handler's effects on the screen state. -/
def VerifyState.perform (s : VerifyState) (es : List Effect) : VerifyState :=
  { s with resendDisabled := resendDisabledAfter s.resendDisabled es, log := s.log ++ es }

/-- What can happen on the resend path: a press of the resend control, a fire
of the one-second interval, the settlement of an outstanding resend call. -/
inductive VerifyAction where
  | pressResend
  | tick
  | resendSettled (prepare : Outcome Unit)
  deriving DecidableEq

/-- One fire of the interval the countdown effect installs.  The effect
installs it only while `resendDisabled` holds and its cleanup clears it when
`resendDisabled` changes, so without `resendDisabled` nothing fires. -/
def tick (s : VerifyState) : VerifyState :=
  if !s.resendDisabled then s
  else if s.countdown ≤ 1 then { s with resendDisabled := false, countdown := 30 }
  else { s with countdown := s.countdown - 1 }

/-- One step of the screen.  A press reaches `onResendCode` only while the
control is not disabled (`disabled={resendDisabled}`); a settlement needs an
outstanding call. -/
def step (s : VerifyState) : VerifyAction → VerifyState
  | .pressResend =>
    if s.resendDisabled then s
    else if !s.isLoaded then s
    else { s.perform onResendCodeBegin with pending := s.pending + 1 }
  | .tick => tick s
  | .resendSettled prepare =>
    if s.pending = 0 then s
    else { s.perform (onResendCodeSettle prepare) with pending := s.pending - 1 }

/-- Runs a sequence of actions. -/
def run (s : VerifyState) (acts : List VerifyAction) : VerifyState :=
  acts.foldl step s

/-- The number of interval fires in a sequence of actions. -/
def ticks : List VerifyAction → Nat
  | [] => 0
  | .tick :: as => ticks as + 1
  | _ :: as => ticks as

/-- Whether a sequence holds only interval fires and successful settlements. -/
def noFailure : List VerifyAction → Bool
  | [] => true
  | .tick :: as => noFailure as
  | .resendSettled (.resolved _) :: as => noFailure as
  | _ :: _ => false

/-- The effects of running an effect `n` times in a row. -/
def rerun : Nat → List Effect → List Effect
  | 0, _ => []
  | n + 1, es => es ++ rerun n es

/-! ## Further projections of a trace -/

/-- The delayed actions a trace schedules with `setTimeout`, in order: the
delay in milliseconds and the navigation the callback issues. -/
def timeouts : List Effect → List (Nat × NavKind × String)
  | [] => []
  | .setTimeout ms k p :: es => (ms, k, p) :: timeouts es
  | _ :: es => timeouts es

/-- The value of `passwordReset` after a trace, from its value before. -/
def passwordResetAfter (passwordReset : Bool) : List Effect → Bool
  | [] => passwordReset
  | .setPasswordReset b :: es => passwordResetAfter b es
  | _ :: es => passwordResetAfter passwordReset es

/-- The value of `emailSent` after a trace, from its value before. -/
def emailSentAfter (emailSent : Bool) : List Effect → Bool
  | [] => emailSent
  | .setEmailSent b :: es => emailSentAfter b es
  | _ :: es => emailSentAfter emailSent es

/-- Whether every provider call of a trace is issued while `loading` is true,
from the value of `loading` before the trace.  The handler is suspended from
the call to the next effect of its trace, so this is also the value of the flag
for as long as the call is outstanding. -/
def guardedByLoading (loading : Bool) : List Effect → Bool
  | [] => true
  | .setLoading b :: es => guardedByLoading b es
  | .call _ :: es => loading && guardedByLoading loading es
  | _ :: es => guardedByLoading loading es

/-- Whether a trace sets the `loading` flag at all. -/
def touchesLoading : List Effect → Bool
  | [] => false
  | .setLoading _ :: _ => true
  | _ :: es => touchesLoading es

/-! ## Profile screen (`src/app/(tabs)/profile.js`) -/

/-- The handler `handleSignOut`: `result` is the outcome of `signOut()`. -/
def handleSignOut (result : Outcome Unit) : List Effect :=
  .call .signOut
  :: (match result with
      | .resolved _ => [.navigate .replace "/(auth)/sign-in" []]
      | .rejected _ => [.consoleError "Error signing out:"])

/-! ## Forgot-password screen (`src/app/(auth)/forgot-password.js`) -/

/-- The `catch` clause of `onRequestResetLink`. -/
def onRequestResetLinkCatch (err : JSError) : List Effect :=
  [.consoleError "Password reset error:",
   .alert "Error" (messageOr err "Failed to send reset link")]

/-- The part of `onRequestResetLink` that runs before the `await` suspends it,
or all of it when a guard returns first. -/
def onRequestResetLinkBegin (isLoaded : Bool) (email : String) : List Effect :=
  if !truthy email then
    [.alert "Error" "Please enter your email address"]
  else if !isLoaded then
    []
  else
    [.setLoading true, .call (.resetPasswordCreate email)]

/-- The part of `onRequestResetLink` that runs once the awaited
`resetPassword.create` has settled with `create`; `email` is the value the
handler closed over. -/
def onRequestResetLinkSettle (email : String) (create : Outcome Unit) : List Effect :=
  (match create with
   | .resolved _ => [.navigate .push "/reset-password" [("email", email)]]
   | .rejected err => onRequestResetLinkCatch err)
  ++ [.setLoading false]

/-- The handler `onRequestResetLink`, run to completion: `create` is the
outcome of `resetPassword.create`, consulted only if the call is reached. -/
def onRequestResetLink (isLoaded : Bool) (email : String) (create : Outcome Unit) :
    List Effect :=
  if !truthy email then
    [.alert "Error" "Please enter your email address"]
  else if !isLoaded then
    []
  else
    [.setLoading true, .call (.resetPasswordCreate email)]
    ++ (match create with
        | .resolved _ => [.navigate .push "/reset-password" [("email", email)]]
        | .rejected err => onRequestResetLinkCatch err)
    ++ [.setLoading false]

/-- The state of the forgot-password screen: the three `useState` cells, the
provider's `isLoaded`, the emails closed over by the submissions awaiting
settlement and the effects performed so far. -/
structure ForgotState where
  isLoaded : Bool
  email : String
  loading : Bool
  emailSent : Bool
  pending : List String
  log : List Effect
  deriving DecidableEq

/-- The screen at mount: `useState('')`, `useState(false)`, `useState(false)`. -/
def ForgotState.mount (isLoaded : Bool) : ForgotState :=
  { isLoaded := isLoaded, email := "", loading := false, emailSent := false,
    pending := [], log := [] }

/-- Performs a handler's effects on the screen state. -/
def ForgotState.perform (s : ForgotState) (es : List Effect) : ForgotState :=
  { s with loading := loadingAfter s.loading es,
           emailSent := emailSentAfter s.emailSent es,
           log := s.log ++ es }

/-- What can happen on the forgot-password screen: an edit of the email field,
a press of the submit button, the settlement of an outstanding submission. -/
inductive ForgotAction where
  | changeEmail (text : String)
  | pressSend
  | settled (create : Outcome Unit)
  deriving DecidableEq

/-- One step of the forgot-password screen.  The field is editable and the
button enabled only while `loading` is false (`editable={!loading}`,
`disabled={loading}`); a settlement needs an outstanding submission. -/
def forgotStep (s : ForgotState) : ForgotAction → ForgotState
  | .changeEmail text => if s.loading then s else { s with email := text }
  | .pressSend =>
    if s.loading then s
    else if calls (onRequestResetLinkBegin s.isLoaded s.email) = [] then
      s.perform (onRequestResetLinkBegin s.isLoaded s.email)
    else
      { s.perform (onRequestResetLinkBegin s.isLoaded s.email) with
        pending := s.pending ++ [s.email] }
  | .settled create =>
    match s.pending with
    | [] => s
    | email :: rest => { s.perform (onRequestResetLinkSettle email create) with pending := rest }

/-- Runs a sequence of actions on the forgot-password screen. -/
def forgotRun (s : ForgotState) (acts : List ForgotAction) : ForgotState :=
  acts.foldl forgotStep s

/-- The two branches of the forgot-password screen's rendering. -/
inductive ForgotView where
  | form
  | sent
  deriving DecidableEq

/-- The branch `!emailSent ? form : sent` of `ForgotPasswordScreen`. -/
def forgotRender (emailSent : Bool) : ForgotView :=
  if !emailSent then .form else .sent

/-! ## Root layout (`src/app/_layout.js`) -/

/-- The names of the `Stack.Screen` children of `RootLayout`. -/
def registeredScreens : List String :=
  ["index", "(auth)", "(tabs)"]

/-- The first segment of an absolute route: what stands between the leading
slash and the next one. -/
def firstSegment (pathname : String) : String :=
  String.mk ((pathname.data.dropWhile (fun c => c == '/')).takeWhile (fun c => c != '/'))

/-! ## Verification screen: the resend label -/

/-- The text of the resend control: the template `Resend in ${countdown}s`,
kept with the number it interpolates, or the fixed 'Resend code'. -/
inductive ResendLabel where
  | resendIn (seconds : Int)
  | resendCode
  deriving DecidableEq

/-- The expression `resendDisabled ? 'Resend in ${countdown}s' : 'Resend code'`
of `VerifyEmailScreen`. -/
def resendLabel (s : VerifyState) : ResendLabel :=
  if s.resendDisabled then .resendIn s.countdown else .resendCode

/-! ## Theorems -/

/-- C1: in `onSignInPress` and `onSignUpPress`, whenever the email or the
password is the empty string, whatever the provider would answer, the handler
performs exactly one effect, the alert ('Error', 'Please fill in all fields'):
no provider call, no navigation, and the loading flag keeps its value. -/
theorem empty_field_blocks_submission (email password : String)
    (h : email = "" ∨ password = "")
    (c : Outcome SessionResult) (c' a p : Outcome Unit) (loading : Bool) :
    (onSignInPress email password c a = [.alert "Error" "Please fill in all fields"]
      ∧ alerts (onSignInPress email password c a) = [("Error", "Please fill in all fields")]
      ∧ calls (onSignInPress email password c a) = []
      ∧ navigations (onSignInPress email password c a) = []
      ∧ loadingAfter loading (onSignInPress email password c a) = loading)
    ∧ (onSignUpPress email password c' p = [.alert "Error" "Please fill in all fields"]
      ∧ alerts (onSignUpPress email password c' p) = [("Error", "Please fill in all fields")]
      ∧ calls (onSignUpPress email password c' p) = []
      ∧ navigations (onSignUpPress email password c' p) = []
      ∧ loadingAfter loading (onSignUpPress email password c' p) = loading) := by
  have hg : (!truthy email || !truthy password) = true := by
    rcases h with h | h <;> simp [h, truthy]
  simp [onSignInPress, onSignUpPress, hg, alerts, calls, navigations, loadingAfter]

/-- Witness for C1: an empty email with a non-empty password. -/
theorem empty_field_blocks_submission_witness :
    calls (onSignInPress "" "hunter22" (.resolved ⟨some "sess_1"⟩) (.resolved ())) = []
    ∧ calls (onSignUpPress "" "hunter22" (.resolved ()) (.resolved ())) = [] :=
  have h := empty_field_blocks_submission "" "hunter22" (Or.inl rfl)
    (.resolved ⟨some "sess_1"⟩) (.resolved ()) (.resolved ()) (.resolved ()) false
  ⟨h.1.2.2.1, h.2.2.2.1⟩

/-- C2: `onResetPassword` applies its checks in the order emptiness,
equality, length.  If any of the three fields is empty the handler's only
effect is the alert 'Please fill in all fields'; otherwise, if the two
passwords differ (whatever their length), it is 'Passwords do not match';
otherwise, if the password is shorter than 8, it is 'Password must be at least
8 characters'.  In all three cases no provider call is made. -/
theorem reset_checks_in_order (isLoaded : Bool) (code newPassword confirmPassword : String)
    (attempt : Outcome Unit) :
    (code = "" ∨ newPassword = "" ∨ confirmPassword = "" →
      onResetPassword isLoaded code newPassword confirmPassword attempt
          = [.alert "Error" "Please fill in all fields"]
        ∧ alerts (onResetPassword isLoaded code newPassword confirmPassword attempt)
          = [("Error", "Please fill in all fields")]
        ∧ calls (onResetPassword isLoaded code newPassword confirmPassword attempt) = [])
    ∧ (code ≠ "" → newPassword ≠ "" → confirmPassword ≠ "" →
        newPassword ≠ confirmPassword →
      onResetPassword isLoaded code newPassword confirmPassword attempt
          = [.alert "Error" "Passwords do not match"]
        ∧ alerts (onResetPassword isLoaded code newPassword confirmPassword attempt)
          = [("Error", "Passwords do not match")]
        ∧ calls (onResetPassword isLoaded code newPassword confirmPassword attempt) = [])
    ∧ (code ≠ "" → newPassword ≠ "" → confirmPassword ≠ "" →
        newPassword = confirmPassword → jsLength newPassword < 8 →
      onResetPassword isLoaded code newPassword confirmPassword attempt
          = [.alert "Error" "Password must be at least 8 characters"]
        ∧ alerts (onResetPassword isLoaded code newPassword confirmPassword attempt)
          = [("Error", "Password must be at least 8 characters")]
        ∧ calls (onResetPassword isLoaded code newPassword confirmPassword attempt) = []) := by
  refine ⟨?_, ?_, ?_⟩
  · intro h
    have hg : (!truthy code || !truthy newPassword || !truthy confirmPassword) = true := by
      rcases h with h | h | h <;> simp [h, truthy]
    simp [onResetPassword, hg, alerts, calls]
  · intro hc hn hp hne
    simp [onResetPassword, truthy, hc, hn, hp, hne, alerts, calls]
  · intro hc hn hp heq hlen
    subst heq
    simp [onResetPassword, truthy, hc, hn, hlen, alerts, calls]

/-- Witness for C2: an empty code; two different passwords, both shorter than
8; two equal passwords shorter than 8. -/
theorem reset_checks_in_order_witness :
    alerts (onResetPassword true "" "longenough" "longenough" (.resolved ()))
        = [("Error", "Please fill in all fields")]
    ∧ alerts (onResetPassword true "123456" "short" "other" (.resolved ()))
        = [("Error", "Passwords do not match")]
    ∧ alerts (onResetPassword true "123456" "short" "short" (.resolved ()))
        = [("Error", "Password must be at least 8 characters")] :=
  ⟨((reset_checks_in_order true "" "longenough" "longenough" (.resolved ())).1
      (Or.inl rfl)).2.1,
   ((reset_checks_in_order true "123456" "short" "other" (.resolved ())).2.1
      (by decide) (by decide) (by decide) (by decide)).2.1,
   ((reset_checks_in_order true "123456" "short" "short" (.resolved ())).2.2
      (by decide) (by decide) (by decide) rfl (by decide)).2.1⟩

/-- C3: in `onSignUpPress` with a non-empty email and a non-empty password,
`signUp.create` is invoked if and only if the password has length at least 8.
Below 8 the handler's only effect is the alert ('Error', 'Password must be at
least 8 characters'), with no provider call and no navigation; from 8 on the
first provider call is `signUp.create` with exactly the entered email as
`emailAddress` and the entered password, and no other `signUp.create` call is
made. -/
theorem signup_create_iff_length (email password : String)
    (he : email ≠ "") (hp : password ≠ "") (create prepare : Outcome Unit) :
    ((∃ e p, ProviderCall.signUpCreate e p ∈ calls (onSignUpPress email password create prepare))
        ↔ 8 ≤ jsLength password)
    ∧ (jsLength password < 8 →
        onSignUpPress email password create prepare
            = [.alert "Error" "Password must be at least 8 characters"]
          ∧ alerts (onSignUpPress email password create prepare)
            = [("Error", "Password must be at least 8 characters")]
          ∧ calls (onSignUpPress email password create prepare) = []
          ∧ navigations (onSignUpPress email password create prepare) = [])
    ∧ (8 ≤ jsLength password →
        (calls (onSignUpPress email password create prepare)).head?
            = some (.signUpCreate email password)
          ∧ ∀ e p, ProviderCall.signUpCreate e p
                ∈ calls (onSignUpPress email password create prepare) →
              e = email ∧ p = password) := by
  by_cases hlen : jsLength password < 8
  · have hlen' : ¬ 8 ≤ jsLength password := by omega
    simp [onSignUpPress, truthy, he, hp, hlen, hlen', alerts, calls, navigations]
  · have hlen' : 8 ≤ jsLength password := by omega
    cases create <;> cases prepare <;>
      simp [onSignUpPress, onSignUpPressCatch, truthy, he, hp, hlen, hlen', calls]

/-- Witness for C3: a password of eight characters reaches `signUp.create`. -/
theorem signup_create_iff_length_witness :
    (calls (onSignUpPress "a@b.c" "12345678" (.resolved ()) (.resolved ()))).head?
      = some (.signUpCreate "a@b.c" "12345678") :=
  ((signup_create_iff_length "a@b.c" "12345678" (by decide) (by decide)
      (.resolved ()) (.resolved ())).2.2 (by decide)).1

/-- The trace of `onVerifyPress` with a non-empty code and the provider loaded
when the exchange resolves with `createdSessionId = sid` and `setActive`
resolves: `setLoading(true)`, the exchange with the entered code, `setActive`
with `sid`, `router.replace('/(app)')`, `setLoading(false)`. -/
theorem onVerifyPress_all_resolved (code : String) (hcode : code ≠ "")
    (sid : Option String) (loading : Bool) :
    onVerifyPress true code (.resolved ⟨sid⟩) (.resolved ())
        = [.setLoading true, .call (.attemptEmailAddressVerification code),
           .call (.setActive sid), .navigate .replace "/(app)" [], .setLoading false]
    ∧ calls (onVerifyPress true code (.resolved ⟨sid⟩) (.resolved ()))
        = [.attemptEmailAddressVerification code, .setActive sid]
    ∧ navigations (onVerifyPress true code (.resolved ⟨sid⟩) (.resolved ()))
        = [(.replace, "/(app)", [])]
    ∧ alerts (onVerifyPress true code (.resolved ⟨sid⟩) (.resolved ())) = []
    ∧ loadingAfter loading (onVerifyPress true code (.resolved ⟨sid⟩) (.resolved ())) = false := by
  simp [onVerifyPress, truthy, hcode, calls, navigations, alerts, loadingAfter]

/-- C4: with the code 123456, the provider loaded, the exchange resolving with
the session sess_1 and `setActive` resolving, `onVerifyPress` calls `setActive`
once, with sess_1, before its only navigation, shows no alert and ends with
loading false, but that navigation is `router.replace('/(app)')`: its group
'(app)' is not a screen the root layout registers, so the replace does not
lead to the authenticated area, which password sign-in reaches with
`router.replace('/(tabs)/home')`. -/
theorem verify_success_replaces_outside_registered_screens :
    onVerifyPress true "123456" (.resolved ⟨some "sess_1"⟩) (.resolved ())
        = [.setLoading true, .call (.attemptEmailAddressVerification "123456"),
           .call (.setActive (some "sess_1")), .navigate .replace "/(app)" [],
           .setLoading false]
    ∧ alerts (onVerifyPress true "123456" (.resolved ⟨some "sess_1"⟩) (.resolved ())) = []
    ∧ loadingAfter true
        (onVerifyPress true "123456" (.resolved ⟨some "sess_1"⟩) (.resolved ())) = false
    ∧ navigations (onVerifyPress true "123456" (.resolved ⟨some "sess_1"⟩) (.resolved ()))
        = [(.replace, "/(app)", [])]
    ∧ firstSegment "/(app)" ∉ registeredScreens
    ∧ navigations (onSignInPress "a@b.c" "hunter22" (.resolved ⟨some "sess_1"⟩) (.resolved ()))
        = [(.replace, "/(tabs)/home", [])]
    ∧ firstSegment "/(tabs)/home" ∈ registeredScreens := by
  refine ⟨?_, ?_, ?_, ?_, ?_, ?_, ?_⟩ <;> decide

/-! ### The resend cooldown -/

theorem run_nil (s : VerifyState) : run s [] = s := rfl

theorem run_cons (s : VerifyState) (a : VerifyAction) (acts : List VerifyAction) :
    run s (a :: acts) = run (step s a) acts := rfl

theorem run_append (s : VerifyState) (xs ys : List VerifyAction) :
    run s (xs ++ ys) = run (run s xs) ys := by
  simp [run, List.foldl_append]

theorem alerts_append (xs ys : List Effect) : alerts (xs ++ ys) = alerts xs ++ alerts ys := by
  induction xs with
  | nil => rfl
  | cons e es ih => cases e <;> simp [alerts, ih]

/-- A successful settlement changes neither flag nor counter. -/
theorem step_settled_ok (s : VerifyState) (u : Unit) :
    (step s (.resendSettled (.resolved u))).resendDisabled = s.resendDisabled
    ∧ (step s (.resendSettled (.resolved u))).countdown = s.countdown := by
  by_cases hp : s.pending = 0 <;>
    simp [step, hp, VerifyState.perform, onResendCodeSettle, resendDisabledAfter]

/-- With the control enabled and no interval fire, nothing changes. -/
theorem run_enabled_no_tick (acts : List VerifyAction) :
    ∀ s : VerifyState, noFailure acts = true → ticks acts = 0 →
      (run s acts).resendDisabled = s.resendDisabled
      ∧ (run s acts).countdown = s.countdown := by
  induction acts with
  | nil => intro s _ _; exact ⟨rfl, rfl⟩
  | cons a as ih =>
    intro s hnf ht
    cases a with
    | pressResend => simp [noFailure] at hnf
    | tick => simp [ticks] at ht
    | resendSettled o =>
      cases o with
      | rejected err => simp [noFailure] at hnf
      | resolved u =>
        have h := ih (step s (.resendSettled (.resolved u)))
          (by simpa [noFailure] using hnf) (by simpa [ticks] using ht)
        rw [run_cons, h.1, h.2]
        exact step_settled_ok s u

/-- While the control is disabled with the counter at `c`, fewer than `c`
interval fires leave it disabled with the counter lowered by their number, and
the `c`-th fire enables it and restores the counter to 30. -/
theorem run_disabled (acts : List VerifyAction) :
    ∀ s : VerifyState, noFailure acts = true → s.resendDisabled = true → 1 ≤ s.countdown →
      ((ticks acts : Int) < s.countdown →
        (run s acts).resendDisabled = true
        ∧ (run s acts).countdown = s.countdown - (ticks acts : Int))
      ∧ ((ticks acts : Int) = s.countdown →
        (run s acts).resendDisabled = false ∧ (run s acts).countdown = 30) := by
  induction acts with
  | nil =>
    intro s _ hd hc
    refine ⟨fun _ => ⟨hd, by simp [run_nil, ticks]⟩, fun h => ?_⟩
    simp [ticks] at h
    omega
  | cons a as ih =>
    intro s hnf hd hc
    cases a with
    | pressResend => simp [noFailure] at hnf
    | resendSettled o =>
      cases o with
      | rejected err => simp [noFailure] at hnf
      | resolved u =>
        have hs := step_settled_ok s u
        have h := ih (step s (.resendSettled (.resolved u)))
          (by simpa [noFailure] using hnf) (by rw [hs.1]; exact hd) (by rw [hs.2]; exact hc)
        rw [hs.2] at h
        simpa [run_cons, ticks] using h
    | tick =>
      have hnf' : noFailure as = true := by simpa [noFailure] using hnf
      by_cases h1 : s.countdown ≤ 1
      · have hc1 : s.countdown = 1 := by omega
        have hstep : (step s .tick).resendDisabled = false ∧ (step s .tick).countdown = 30 := by
          simp [step, tick, hd, h1]
        refine ⟨fun h => ?_, fun h => ?_⟩
        · simp [ticks] at h
          omega
        · have ht : ticks as = 0 := by
            simp [ticks] at h
            omega
          have h' := run_enabled_no_tick as (step s .tick) hnf' ht
          rw [run_cons, h'.1, h'.2]
          exact hstep
      · have hstep : (step s .tick).resendDisabled = true
            ∧ (step s .tick).countdown = s.countdown - 1 := by
          simp [step, tick, hd, h1]
        have h := ih (step s .tick) hnf' hstep.1 (by rw [hstep.2]; omega)
        rw [hstep.2] at h
        refine ⟨fun hlt => ?_, fun heq => ?_⟩
        · have hlt' : (ticks as : Int) < s.countdown - 1 := by
            simp [ticks] at hlt
            omega
          have h' := h.1 hlt'
          rw [run_cons]
          refine ⟨h'.1, ?_⟩
          rw [h'.2]
          simp [ticks]
          omega
        · have heq' : (ticks as : Int) = s.countdown - 1 := by
            simp [ticks] at heq
            omega
          rw [run_cons]
          exact h.2 heq'

/-- C5: on a freshly mounted verification screen with the provider loaded
(resend enabled, counter 30), after a press of the resend control followed by
interval fires and successful settlements only, the control is disabled with
the counter at 30 minus the number of fires as long as at most 29 fires have
occurred, and with the 30th fire the control is enabled again and the counter
is back at 30. -/
theorem resend_cooldown_thirty_ticks (acts : List VerifyAction)
    (hok : noFailure acts = true) :
    (VerifyState.mount true).resendDisabled = false
    ∧ (VerifyState.mount true).countdown = 30
    ∧ (ticks acts ≤ 29 →
        (run (VerifyState.mount true) (.pressResend :: acts)).resendDisabled = true
        ∧ (run (VerifyState.mount true) (.pressResend :: acts)).countdown
            = 30 - (ticks acts : Int))
    ∧ (ticks acts = 30 →
        (run (VerifyState.mount true) (.pressResend :: acts)).resendDisabled = false
        ∧ (run (VerifyState.mount true) (.pressResend :: acts)).countdown = 30) := by
  have hd : (step (VerifyState.mount true) .pressResend).resendDisabled = true := by decide
  have hc : (step (VerifyState.mount true) .pressResend).countdown = 30 := by decide
  have h := run_disabled acts (step (VerifyState.mount true) .pressResend) hok hd
    (by rw [hc]; decide)
  rw [hc] at h
  refine ⟨rfl, rfl, fun hle => ?_, fun heq => ?_⟩
  · rw [run_cons]
    exact h.1 (by omega)
  · rw [run_cons]
    exact h.2 (by omega)

/-- Witness for C5: the resend call succeeds after two fires; 29 fires leave
the control disabled with the counter at 1. -/
theorem resend_cooldown_thirty_ticks_witness :
    (run (VerifyState.mount true)
        (.pressResend :: (.tick :: .tick :: .resendSettled (.resolved ())
          :: List.replicate 27 .tick))).resendDisabled = true
    ∧ (run (VerifyState.mount true)
        (.pressResend :: (.tick :: .tick :: .resendSettled (.resolved ())
          :: List.replicate 27 .tick))).countdown = 30 - ((29 : Nat) : Int) :=
  (resend_cooldown_thirty_ticks
      (.tick :: .tick :: .resendSettled (.resolved ()) :: List.replicate 27 .tick)
      (by decide)).2.2.1 (by decide)

/-- Interval fires leave the loaded flag, the outstanding calls and the log
as they are. -/
theorem run_ticks_frame (n : Nat) :
    ∀ s : VerifyState,
      (run s (List.replicate n .tick)).isLoaded = s.isLoaded
      ∧ (run s (List.replicate n .tick)).pending = s.pending
      ∧ (run s (List.replicate n .tick)).log = s.log := by
  induction n with
  | zero => intro s; exact ⟨rfl, rfl, rfl⟩
  | succ n ih =>
    intro s
    have hstep : (step s .tick).isLoaded = s.isLoaded ∧ (step s .tick).pending = s.pending
        ∧ (step s .tick).log = s.log := by
      simp only [step, tick]
      split
      · exact ⟨rfl, rfl, rfl⟩
      · split <;> exact ⟨rfl, rfl, rfl⟩
    have h := ih (step s .tick)
    rw [List.replicate_succ, run_cons, h.1, h.2.1, h.2.2]
    exact hstep

/-- A rejected settlement of an outstanding call enables the control and
appends the effects of the `catch` clause to the log. -/
theorem step_settled_rejected (t : VerifyState) (err : JSError) (hp : t.pending ≠ 0) :
    (step t (.resendSettled (.rejected err))).resendDisabled = false
    ∧ (step t (.resendSettled (.rejected err))).log
        = t.log ++ onResendCodeSettle (.rejected err) := by
  simp [step, hp, VerifyState.perform, onResendCodeSettle, resendDisabledAfter]

/-- C6: when `signUp.prepareEmailAddressVerification` rejects in `onResendCode`
with the provider loaded, the handler shows exactly one alert, ('Error',
'Failed to resend verification code'), and `resendDisabled` is false once it
has settled, whatever its value was at the settlement.  On the screen, from any
state with the control enabled, a press followed by any number of interval
fires and then the rejection leaves the control enabled and adds exactly that
one alert. -/
theorem resend_failure_reenables (s : VerifyState) (hloaded : s.isLoaded = true)
    (henabled : s.resendDisabled = false) (err : JSError) (n : Nat) (d : Bool) :
    alerts (onResendCode true (.rejected err))
        = [("Error", "Failed to resend verification code")]
    ∧ resendDisabledAfter d (onResendCode true (.rejected err)) = false
    ∧ resendDisabledAfter d (onResendCodeSettle (.rejected err)) = false
    ∧ (run s (.pressResend :: (List.replicate n .tick
          ++ [.resendSettled (.rejected err)]))).resendDisabled = false
    ∧ alerts (run s (.pressResend :: (List.replicate n .tick
          ++ [.resendSettled (.rejected err)]))).log
        = alerts s.log ++ [("Error", "Failed to resend verification code")] := by
  have hpress : (step s .pressResend).pending = s.pending + 1
      ∧ (step s .pressResend).log = s.log ++ onResendCodeBegin := by
    simp [step, henabled, hloaded, VerifyState.perform]
  have hfr := run_ticks_frame n (step s .pressResend)
  have hpend : (run (step s .pressResend) (List.replicate n .tick)).pending ≠ 0 := by
    rw [hfr.2.1, hpress.1]
    omega
  have hset := step_settled_rejected (run (step s .pressResend) (List.replicate n .tick))
    err hpend
  refine ⟨rfl, by cases d <;> rfl, by cases d <;> rfl, ?_, ?_⟩
  · rw [run_cons, run_append, run_cons, run_nil]
    exact hset.1
  · rw [run_cons, run_append, run_cons, run_nil, hset.2, hfr.2.2, hpress.2]
    simp [alerts_append, onResendCodeBegin, onResendCodeSettle, alerts]

/-- Witness for C6: the rejection arrives after five interval fires. -/
theorem resend_failure_reenables_witness :
    (run (VerifyState.mount true) (.pressResend :: (List.replicate 5 .tick
        ++ [.resendSettled (.rejected ⟨none, none⟩)]))).resendDisabled = false :=
  (resend_failure_reenables (VerifyState.mount true) rfl rfl ⟨none, none⟩ 5 true).2.2.2.1

/-- C7: in `handleGoogleSignIn` and `handleAppleSignIn`, when the OAuth flow
has been started and resolves with a truthy `cancelSignIn`, whatever
`createdSessionId` it carries, the handler performs `setLoading(true)`, the
flow and `setLoading(false)` and nothing else: no alert, no `setActive`, no
navigation, and loading is false at the end. -/
theorem oauth_cancel_is_silent (loading : Bool) (sid : Option String)
    (activate : Outcome Unit) (l : Bool) :
    (Effect.call (.startOAuthFlow "oauth_google")
        ∈ handleGoogleSignIn loading (.resolved ⟨sid, true⟩) activate →
      handleGoogleSignIn loading (.resolved ⟨sid, true⟩) activate
          = [.setLoading true, .call (.startOAuthFlow "oauth_google"), .setLoading false]
        ∧ alerts (handleGoogleSignIn loading (.resolved ⟨sid, true⟩) activate) = []
        ∧ calls (handleGoogleSignIn loading (.resolved ⟨sid, true⟩) activate)
            = [.startOAuthFlow "oauth_google"]
        ∧ navigations (handleGoogleSignIn loading (.resolved ⟨sid, true⟩) activate) = []
        ∧ loadingAfter l (handleGoogleSignIn loading (.resolved ⟨sid, true⟩) activate) = false)
    ∧ (Effect.call (.startOAuthFlow "oauth_apple")
        ∈ handleAppleSignIn loading (.resolved ⟨sid, true⟩) activate →
      handleAppleSignIn loading (.resolved ⟨sid, true⟩) activate
          = [.setLoading true, .call (.startOAuthFlow "oauth_apple"), .setLoading false]
        ∧ alerts (handleAppleSignIn loading (.resolved ⟨sid, true⟩) activate) = []
        ∧ calls (handleAppleSignIn loading (.resolved ⟨sid, true⟩) activate)
            = [.startOAuthFlow "oauth_apple"]
        ∧ navigations (handleAppleSignIn loading (.resolved ⟨sid, true⟩) activate) = []
        ∧ loadingAfter l (handleAppleSignIn loading (.resolved ⟨sid, true⟩) activate) = false) := by
  cases loading <;>
    simp [handleGoogleSignIn, handleAppleSignIn, oauthSignIn, alerts, calls, navigations,
      loadingAfter]

/-- Witness for C7: a cancellation result that also carries a session id. -/
theorem oauth_cancel_is_silent_witness :
    navigations (handleGoogleSignIn false (.resolved ⟨some "sess_1", true⟩) (.resolved ())) = []
    ∧ navigations (handleAppleSignIn false (.resolved ⟨some "sess_1", true⟩) (.resolved ())) = [] :=
  have h := oauth_cancel_is_silent false (some "sess_1") (.resolved ()) false
  ⟨(h.1 (by decide)).2.2.2.1, (h.2 (by decide)).2.2.2.1⟩

/-- C8: on the sign-up screen `onSelectAuth` shows an alert for a rejection
whose code is 'OAUTH_CALLBACK_ERROR', for both strategies, where the sign-in
screen's handlers show none for the same rejection. -/
theorem signup_oauth_cancellation_shows_alert :
    alerts (onSelectAuth .google (.rejected ⟨none, some "OAUTH_CALLBACK_ERROR"⟩) (.resolved ()))
        = [("Error", "Failed to sign in with google")]
    ∧ alerts (onSelectAuth .apple (.rejected ⟨none, some "OAUTH_CALLBACK_ERROR"⟩) (.resolved ()))
        = [("Error", "Failed to sign in with apple")]
    ∧ alerts (handleGoogleSignIn false (.rejected ⟨none, some "OAUTH_CALLBACK_ERROR"⟩)
        (.resolved ())) = []
    ∧ alerts (handleAppleSignIn false (.rejected ⟨none, some "OAUTH_CALLBACK_ERROR"⟩)
        (.resolved ())) = [] := by
  decide

/-- Running the redirect effect with both session flags true leaves
`authLoading` as it was, however often it runs. -/
theorem authLoadingAfter_rerun (n : Nat) (b : Bool) :
    authLoadingAfter b (rerun n (signInRedirectEffect true true)) = b := by
  induction n with
  | zero => rfl
  | succ n ih => simpa [rerun, signInRedirectEffect, authLoadingAfter] using ih

/-- C9: on the sign-in screen with `isAuthLoaded` and `isSignedIn` both true,
the mount effect performs exactly `router.replace('/(tabs)/home')`, it does not
set `authLoading` to false however often it runs, so `authLoading` keeps its
mount value `true`, and the screen renders the spinner, not the form, for
every value of `isSignInLoaded`. -/
theorem signin_redirects_when_signed_in (isSignInLoaded : Bool) (n : Nat) :
    signInRedirectEffect true true = [.navigate .replace "/(tabs)/home" []]
    ∧ Effect.setAuthLoading false ∉ rerun n (signInRedirectEffect true true)
    ∧ authLoadingAfter signInMountAuthLoading (rerun n (signInRedirectEffect true true)) = true
    ∧ signInRender signInMountAuthLoading isSignInLoaded true = .spinner
    ∧ signInRender
        (authLoadingAfter signInMountAuthLoading (rerun n (signInRedirectEffect true true)))
        isSignInLoaded true = .spinner := by
  refine ⟨rfl, ?_, authLoadingAfter_rerun n _, by cases isSignInLoaded <;> rfl, ?_⟩
  · induction n with
    | zero => simp [rerun]
    | succ n ih => simpa [rerun, signInRedirectEffect] using ih
  · rw [authLoadingAfter_rerun]
    cases isSignInLoaded <;> rfl

/-- C10: in `TabsLayout`, for every pair of flags, the tab navigator is
rendered if and only if both are true, and otherwise the spinner; the effect
issues `router.replace('/(auth)/sign-in')` if and only if `isLoaded` is true
and `isSignedIn` is false, and otherwise does nothing; with `isLoaded` false
the spinner is rendered and nothing is issued. -/
theorem tabs_layout_gate (isLoaded isSignedIn : Bool) :
    (tabsLayoutRender isLoaded isSignedIn = .tabs ↔ (isLoaded = true ∧ isSignedIn = true))
    ∧ (tabsLayoutRender isLoaded isSignedIn = .spinner
        ↔ ¬ (isLoaded = true ∧ isSignedIn = true))
    ∧ (tabsLayoutEffect isLoaded isSignedIn = [.navigate .replace "/(auth)/sign-in" []]
        ↔ (isLoaded = true ∧ isSignedIn = false))
    ∧ (tabsLayoutEffect isLoaded isSignedIn = []
        ↔ ¬ (isLoaded = true ∧ isSignedIn = false))
    ∧ tabsLayoutRender false isSignedIn = .spinner
    ∧ tabsLayoutEffect false isSignedIn = [] := by
  cases isLoaded <;> cases isSignedIn <;> decide

/-! ### Call order, failures and the loading flag -/

/-- A password of length at least 8 is not the empty string. -/
theorem ne_empty_of_jsLength (password : String) (hlen : 8 ≤ jsLength password) :
    password ≠ "" := by
  rintro rfl
  simp [jsLength] at hlen

/-- C11: in `onSignUpPress` with a non-empty email and a password of length at
least 8, the handler calls `signUp.create` and then
`signUp.prepareEmailAddressVerification` with strategy 'email_code', and when
both resolve it pushes '/verify-email' with `params.email` the entered email,
after both calls.  If `signUp.create` rejects, it is the only provider call
and nothing is navigated; if the preparation rejects, nothing is navigated;
so a navigation occurs only when both calls have resolved. -/
theorem signup_create_prepare_push (email password : String)
    (he : email ≠ "") (hlen : 8 ≤ jsLength password)
    (create prepare : Outcome Unit) (err : JSError) :
    onSignUpPress email password (.resolved ()) (.resolved ())
        = [.setLoading true, .call (.signUpCreate email password),
           .call (.prepareEmailAddressVerification "email_code"),
           .navigate .push "/verify-email" [("email", email)], .setLoading false]
    ∧ (calls (onSignUpPress email password (.rejected err) prepare)
          = [.signUpCreate email password]
        ∧ navigations (onSignUpPress email password (.rejected err) prepare) = [])
    ∧ (calls (onSignUpPress email password (.resolved ()) (.rejected err))
          = [.signUpCreate email password, .prepareEmailAddressVerification "email_code"]
        ∧ navigations (onSignUpPress email password (.resolved ()) (.rejected err)) = [])
    ∧ (navigations (onSignUpPress email password create prepare) ≠ [] →
        create = .resolved () ∧ prepare = .resolved ()) := by
  have hp := ne_empty_of_jsLength password hlen
  have hlen' : ¬ jsLength password < 8 := by omega
  refine ⟨?_, ?_, ?_, ?_⟩
  · simp [onSignUpPress, truthy, he, hp, hlen']
  · simp [onSignUpPress, onSignUpPressCatch, truthy, he, hp, hlen', calls, navigations]
  · simp [onSignUpPress, onSignUpPressCatch, truthy, he, hp, hlen', calls, navigations]
  · cases create <;> cases prepare <;>
      simp [onSignUpPress, onSignUpPressCatch, truthy, he, hp, hlen', navigations]

/-- Witness for C11: both calls resolve and the push carries the email. -/
theorem signup_create_prepare_push_witness :
    navigations (onSignUpPress "a@b.c" "12345678" (.resolved ()) (.resolved ()))
      = [(.push, "/verify-email", [("email", "a@b.c")])] :=
  have h := (signup_create_prepare_push "a@b.c" "12345678" (by decide) (by decide)
    (.resolved ()) (.resolved ()) ⟨none, none⟩).1
  by rw [h]; rfl

/-- C12: in `onSignInPress`, `onSignUpPress`, `onVerifyPress`,
`onRequestResetLink` and `onResetPassword`, with inputs that pass the handler's
own client-side checks and the provider loaded, when an awaited call rejects
with `err` the handler shows exactly one alert, titled 'Error', and navigates
nowhere.  Its message is `err.errors[0].message` when `err.errors` exists, has
a first entry and that entry's message is a non-empty string, and otherwise
the handler's fallback: 'Failed to sign in', 'Failed to sign up', 'Failed to
verify email', 'Failed to send reset link', 'Failed to reset password'.  The
sign-in password is any non-empty string; only the sign-up and the new
password have to be of length at least 8. -/
theorem rejection_shows_first_message_or_fallback
    (email signInPassword password code newPassword : String)
    (he : email ≠ "") (hsp : signInPassword ≠ "") (hlen : 8 ≤ jsLength password)
    (hc : code ≠ "") (hn : 8 ≤ jsLength newPassword)
    (err : JSError) (r : SessionResult) (o : Outcome Unit) :
    (alerts (onSignInPress email signInPassword (.rejected err) o)
          = [("Error", messageOr err "Failed to sign in")]
        ∧ navigations (onSignInPress email signInPassword (.rejected err) o) = []
        ∧ alerts (onSignInPress email signInPassword (.resolved r) (.rejected err))
          = [("Error", messageOr err "Failed to sign in")]
        ∧ navigations (onSignInPress email signInPassword (.resolved r) (.rejected err)) = [])
    ∧ (alerts (onSignUpPress email password (.rejected err) o)
          = [("Error", messageOr err "Failed to sign up")]
        ∧ navigations (onSignUpPress email password (.rejected err) o) = []
        ∧ alerts (onSignUpPress email password (.resolved ()) (.rejected err))
          = [("Error", messageOr err "Failed to sign up")]
        ∧ navigations (onSignUpPress email password (.resolved ()) (.rejected err)) = [])
    ∧ (alerts (onVerifyPress true code (.rejected err) o)
          = [("Error", messageOr err "Failed to verify email")]
        ∧ navigations (onVerifyPress true code (.rejected err) o) = []
        ∧ alerts (onVerifyPress true code (.resolved r) (.rejected err))
          = [("Error", messageOr err "Failed to verify email")]
        ∧ navigations (onVerifyPress true code (.resolved r) (.rejected err)) = [])
    ∧ (alerts (onRequestResetLink true email (.rejected err))
          = [("Error", messageOr err "Failed to send reset link")]
        ∧ navigations (onRequestResetLink true email (.rejected err)) = [])
    ∧ (alerts (onResetPassword true code newPassword newPassword (.rejected err))
          = [("Error", messageOr err "Failed to reset password")]
        ∧ navigations (onResetPassword true code newPassword newPassword (.rejected err)) = []
        ∧ timeouts (onResetPassword true code newPassword newPassword (.rejected err)) = [])
    ∧ (∀ fallback m rest, err.errors = some (some m :: rest) → m ≠ "" →
        messageOr err fallback = m)
    ∧ (∀ fallback, (¬ ∃ m rest, err.errors = some (some m :: rest) ∧ m ≠ "") →
        messageOr err fallback = fallback) := by
  have hp := ne_empty_of_jsLength password hlen
  have hnp := ne_empty_of_jsLength newPassword hn
  have hlen' : ¬ jsLength password < 8 := by omega
  have hn' : ¬ jsLength newPassword < 8 := by omega
  refine ⟨?_, ?_, ?_, ?_, ?_, ?_, ?_⟩
  · simp [onSignInPress, onSignInPressCatch, truthy, he, hsp, alerts, navigations]
  · simp [onSignUpPress, onSignUpPressCatch, truthy, he, hp, hlen', alerts, navigations]
  · simp [onVerifyPress, onVerifyPressCatch, truthy, hc, alerts, navigations]
  · simp [onRequestResetLink, onRequestResetLinkCatch, truthy, he, alerts, navigations]
  · simp [onResetPassword, onResetPasswordCatch, truthy, hc, hnp, hn', alerts, navigations,
      timeouts]
  · intro fallback m rest herr hm
    simp [messageOr, firstErrorMessage, herr, truthy, hm]
  · intro fallback hno
    rcases err with ⟨errors, code'⟩
    rcases errors with _ | ⟨_ | ⟨entry, rest⟩⟩
    · rfl
    · rfl
    · rcases entry with _ | m
      · rfl
      · by_cases hm : m = ""
        · simp [messageOr, firstErrorMessage, truthy, hm]
        · exact absurd ⟨m, rest, rfl, hm⟩ hno

/-- Witness for C12: a rejected sign-in with a password of seven characters
whose error carries a message, and a rejected reset request whose error has
an empty list of entries. -/
theorem rejection_shows_first_message_or_fallback_witness :
    alerts (onSignInPress "a@b.c" "hunter2"
        (.rejected ⟨some [some "Password is incorrect"], none⟩) (.resolved ()))
      = [("Error", "Password is incorrect")]
    ∧ alerts (onRequestResetLink true "a@b.c" (.rejected ⟨some [], none⟩))
      = [("Error", "Failed to send reset link")] :=
  have h := rejection_shows_first_message_or_fallback "a@b.c" "hunter2" "12345678" "123456"
    "12345678" (by decide) (by decide) (by decide) (by decide) (by decide)
    ⟨some [some "Password is incorrect"], none⟩ ⟨none⟩ (.resolved ())
  have h' := rejection_shows_first_message_or_fallback "a@b.c" "hunter2" "12345678" "123456"
    "12345678" (by decide) (by decide) (by decide) (by decide) (by decide)
    ⟨some [], none⟩ ⟨none⟩ (.resolved ())
  ⟨by rw [h.1.1]; rfl, by rw [h'.2.2.2.1.1]; rfl⟩

/-- C13, as stated, fails: when `signOut()` rejects, `handleSignOut` logs the
error and shows no alert. -/
theorem signout_failure_shows_no_alert :
    handleSignOut (.rejected ⟨none, none⟩)
        = [.call .signOut, .consoleError "Error signing out:"]
    ∧ alerts (handleSignOut (.rejected ⟨none, none⟩)) = []
    ∧ (alerts (handleSignOut (.rejected ⟨none, none⟩))).length ≠ 1 := by
  decide

/-- C13, amended: for every handler that performs a provider call other than
`handleSignOut` (password sign-in, the OAuth triggers of both screens,
sign-up, verification, resend, forgot-password, reset-password), with inputs
that pass the handler's own client-side checks, a rejection with a
non-cancellation error shows exactly one alert; `handleSignOut` only logs a
rejection with `console.error` and shows no alert.  The sign-in password is any
non-empty string; only the sign-up and the new password have to be of length
at least 8. -/
theorem rejection_shows_one_alert_except_signout
    (email signInPassword password code newPassword sid : String)
    (he : email ≠ "") (hsp : signInPassword ≠ "") (hlen : 8 ≤ jsLength password)
    (hc : code ≠ "") (hn : 8 ≤ jsLength newPassword) (hsid : sid ≠ "")
    (err : JSError) (hcode : err.code ≠ some "OAUTH_CALLBACK_ERROR")
    (r : SessionResult) (o : Outcome Unit) (strategy : AuthStrategy) :
    ((alerts (onSignInPress email signInPassword (.rejected err) o)).length = 1
        ∧ (alerts (onSignInPress email signInPassword (.resolved r)
            (.rejected err))).length = 1)
    ∧ ((alerts (handleGoogleSignIn false (.rejected err) o)).length = 1
        ∧ (alerts (handleGoogleSignIn false (.resolved ⟨some sid, false⟩)
            (.rejected err))).length = 1
        ∧ (alerts (handleAppleSignIn false (.rejected err) o)).length = 1
        ∧ (alerts (handleAppleSignIn false (.resolved ⟨some sid, false⟩)
            (.rejected err))).length = 1)
    ∧ ((alerts (onSelectAuth strategy (.rejected err) o)).length = 1
        ∧ (alerts (onSelectAuth strategy (.resolved ⟨some sid, false⟩)
            (.rejected err))).length = 1)
    ∧ ((alerts (onSignUpPress email password (.rejected err) o)).length = 1
        ∧ (alerts (onSignUpPress email password (.resolved ()) (.rejected err))).length = 1)
    ∧ ((alerts (onVerifyPress true code (.rejected err) o)).length = 1
        ∧ (alerts (onVerifyPress true code (.resolved r) (.rejected err))).length = 1)
    ∧ (alerts (onResendCode true (.rejected err))).length = 1
    ∧ (alerts (onRequestResetLink true email (.rejected err))).length = 1
    ∧ (alerts (onResetPassword true code newPassword newPassword (.rejected err))).length = 1
    ∧ handleSignOut (.rejected err) = [.call .signOut, .consoleError "Error signing out:"]
    ∧ alerts (handleSignOut (.rejected err)) = [] := by
  have hp := ne_empty_of_jsLength password hlen
  have hnp := ne_empty_of_jsLength newPassword hn
  have hlen' : ¬ jsLength password < 8 := by omega
  have hn' : ¬ jsLength newPassword < 8 := by omega
  refine ⟨?_, ?_, ?_, ?_, ?_, ?_, ?_, ?_, ?_, ?_⟩
  · simp [onSignInPress, onSignInPressCatch, truthy, he, hsp, alerts]
  · simp [handleGoogleSignIn, handleAppleSignIn, oauthSignIn, oauthSignInCatch, truthyOpt,
      truthy, hsid, hcode, alerts]
  · simp [onSelectAuth, truthyOpt, truthy, hsid, alerts]
  · simp [onSignUpPress, onSignUpPressCatch, truthy, he, hp, hlen', alerts]
  · simp [onVerifyPress, onVerifyPressCatch, truthy, hc, alerts]
  · simp [onResendCode, onResendCodeBegin, onResendCodeSettle, alerts]
  · simp [onRequestResetLink, onRequestResetLinkCatch, truthy, he, alerts]
  · simp [onResetPassword, onResetPasswordCatch, truthy, hc, hnp, hn', alerts]
  · rfl
  · rfl

/-- Witness for C13, amended: a rejection without code or messages, with a
sign-in password of seven characters. -/
theorem rejection_shows_one_alert_except_signout_witness :
    (alerts (onSignInPress "a@b.c" "hunter2" (.rejected ⟨none, none⟩) (.resolved ()))).length = 1
    ∧ (alerts (onResendCode true (.rejected ⟨none, none⟩))).length = 1
    ∧ alerts (handleSignOut (.rejected ⟨none, none⟩)) = [] :=
  have h := rejection_shows_one_alert_except_signout "a@b.c" "hunter2" "12345678" "123456"
    "12345678" "sess_1" (by decide) (by decide) (by decide) (by decide) (by decide) (by decide)
    ⟨none, none⟩ (by decide) ⟨none⟩ (.resolved ()) .google
  ⟨h.1.1, h.2.2.2.2.2.1, h.2.2.2.2.2.2.2.2.2⟩

/-- C14, as stated, fails: `onResendCode` and `handleSignOut` issue their
provider call without ever setting `loading`, so with `loading` false at entry
the call is outstanding while `loading` is false. -/
theorem resend_and_signout_bypass_loading :
    onResendCode true (.resolved ())
        = [.setResendDisabled true, .call (.prepareEmailAddressVerification "email_code"),
           .alert "Success" "Verification code resent!"]
    ∧ guardedByLoading false (onResendCode true (.resolved ())) = false
    ∧ handleSignOut (.resolved ())
        = [.call .signOut, .navigate .replace "/(auth)/sign-in" []]
    ∧ guardedByLoading false (handleSignOut (.resolved ())) = false := by
  decide

/-- The body shared by the sign-in screen's OAuth handlers issues its calls
while `loading` is true and ends with `loading` false when it issued one. -/
theorem oauthSignIn_loading (strategy message : String) (l : Bool)
    (flow : Outcome OAuthResult) (a : Outcome Unit) :
    guardedByLoading l (oauthSignIn strategy message l flow a) = true
    ∧ loadingAfter l (oauthSignIn strategy message l flow a)
        = if calls (oauthSignIn strategy message l flow a) = [] then l else false := by
  cases l
  · rcases flow with ⟨sid, cancel⟩ | err
    · cases cancel <;> cases h : truthyOpt sid <;> cases a <;>
        simp [oauthSignIn, oauthSignInCatch, h, guardedByLoading, loadingAfter, calls]
      split <;> simp [guardedByLoading, loadingAfter, calls]
    · simp [oauthSignIn, oauthSignInCatch, guardedByLoading, loadingAfter, calls]
      split <;> simp [guardedByLoading, loadingAfter, calls]
  · simp [oauthSignIn, guardedByLoading, loadingAfter, calls]

/-- C14, amended: in the password handlers (`onSignInPress`, `onSignUpPress`,
`onVerifyPress`, `onRequestResetLink`, `onResetPassword`) and in the sign-in
screen's OAuth handlers, for every input and every outcome of the calls, every
provider call is issued while `loading` is true, and `loading` is false at the
end of every run that issued a call (and unchanged in a run that issued none);
`onResendCode` and `handleSignOut` never set `loading`. -/
theorem loading_guards_password_and_signin_oauth
    (email password code newPassword confirmPassword : String) (isLoaded l : Bool)
    (cs : Outcome SessionResult) (cu a : Outcome Unit) (flow : Outcome OAuthResult) :
    (guardedByLoading l (onSignInPress email password cs a) = true
      ∧ loadingAfter l (onSignInPress email password cs a)
          = if calls (onSignInPress email password cs a) = [] then l else false)
    ∧ (guardedByLoading l (onSignUpPress email password cu a) = true
      ∧ loadingAfter l (onSignUpPress email password cu a)
          = if calls (onSignUpPress email password cu a) = [] then l else false)
    ∧ (guardedByLoading l (onVerifyPress isLoaded code cs a) = true
      ∧ loadingAfter l (onVerifyPress isLoaded code cs a)
          = if calls (onVerifyPress isLoaded code cs a) = [] then l else false)
    ∧ (guardedByLoading l (onRequestResetLink isLoaded email cu) = true
      ∧ loadingAfter l (onRequestResetLink isLoaded email cu)
          = if calls (onRequestResetLink isLoaded email cu) = [] then l else false)
    ∧ (guardedByLoading l (onResetPassword isLoaded code newPassword confirmPassword cu) = true
      ∧ loadingAfter l (onResetPassword isLoaded code newPassword confirmPassword cu)
          = if calls (onResetPassword isLoaded code newPassword confirmPassword cu) = []
            then l else false)
    ∧ (guardedByLoading l (handleGoogleSignIn l flow a) = true
      ∧ loadingAfter l (handleGoogleSignIn l flow a)
          = if calls (handleGoogleSignIn l flow a) = [] then l else false)
    ∧ (guardedByLoading l (handleAppleSignIn l flow a) = true
      ∧ loadingAfter l (handleAppleSignIn l flow a)
          = if calls (handleAppleSignIn l flow a) = [] then l else false)
    ∧ touchesLoading (onResendCode isLoaded a) = false
    ∧ touchesLoading (handleSignOut a) = false := by
  refine ⟨?_, ?_, ?_, ?_, ?_, ?_, ?_, ?_, ?_⟩
  · unfold onSignInPress
    split
    · simp [guardedByLoading, loadingAfter, calls]
    · cases cs <;> cases a <;>
        simp [onSignInPressCatch, guardedByLoading, loadingAfter, calls]
  · unfold onSignUpPress
    split
    · simp [guardedByLoading, loadingAfter, calls]
    · split
      · simp [guardedByLoading, loadingAfter, calls]
      · cases cu <;> cases a <;>
          simp [onSignUpPressCatch, guardedByLoading, loadingAfter, calls]
  · unfold onVerifyPress
    split
    · simp [guardedByLoading, loadingAfter, calls]
    · split
      · simp [guardedByLoading, loadingAfter, calls]
      · cases cs <;> cases a <;>
          simp [onVerifyPressCatch, guardedByLoading, loadingAfter, calls]
  · unfold onRequestResetLink
    split
    · simp [guardedByLoading, loadingAfter, calls]
    · split
      · simp [guardedByLoading, loadingAfter, calls]
      · cases cu <;>
          simp [onRequestResetLinkCatch, guardedByLoading, loadingAfter, calls]
  · unfold onResetPassword
    split
    · simp [guardedByLoading, loadingAfter, calls]
    · split
      · simp [guardedByLoading, loadingAfter, calls]
      · split
        · simp [guardedByLoading, loadingAfter, calls]
        · split
          · simp [guardedByLoading, loadingAfter, calls]
          · cases cu <;>
              simp [onResetPasswordCatch, guardedByLoading, loadingAfter, calls]
  · exact oauthSignIn_loading _ _ l flow a
  · exact oauthSignIn_loading _ _ l flow a
  · cases isLoaded <;> cases a <;> rfl
  · cases a <;> rfl

/-! ### The forgot-password screen -/

theorem forgotRun_nil (s : ForgotState) : forgotRun s [] = s := rfl

theorem forgotRun_cons (s : ForgotState) (a : ForgotAction) (acts : List ForgotAction) :
    forgotRun s (a :: acts) = forgotRun (forgotStep s a) acts := rfl

/-- When the call is reached, the whole handler is its part before the `await`
followed by its part after it. -/
theorem onRequestResetLink_split (isLoaded : Bool) (email : String) (create : Outcome Unit)
    (hcall : calls (onRequestResetLinkBegin isLoaded email) ≠ []) :
    onRequestResetLink isLoaded email create
      = onRequestResetLinkBegin isLoaded email ++ onRequestResetLinkSettle email create := by
  unfold onRequestResetLinkBegin at hcall
  unfold onRequestResetLink onRequestResetLinkBegin onRequestResetLinkSettle
  split
  · simp_all [calls]
  · split
    · simp_all [calls]
    · simp

/-- The part of `onRequestResetLink` before the `await` does not set `emailSent`. -/
theorem emailSentAfter_begin (b isLoaded : Bool) (email : String) :
    emailSentAfter b (onRequestResetLinkBegin isLoaded email) = b := by
  unfold onRequestResetLinkBegin
  split
  · rfl
  · split <;> rfl

/-- The part of `onRequestResetLink` after the `await` does not set `emailSent`. -/
theorem emailSentAfter_settle (b : Bool) (email : String) (create : Outcome Unit) :
    emailSentAfter b (onRequestResetLinkSettle email create) = b := by
  cases create <;> rfl

/-- No step of the forgot-password screen changes `emailSent`. -/
theorem forgotStep_emailSent (s : ForgotState) (a : ForgotAction) :
    (forgotStep s a).emailSent = s.emailSent := by
  cases a with
  | changeEmail text =>
    simp only [forgotStep]
    split <;> rfl
  | pressSend =>
    simp only [forgotStep]
    split
    · rfl
    · split <;> simp [ForgotState.perform, emailSentAfter_begin]
  | settled create =>
    simp only [forgotStep]
    split
    · rfl
    · simp [ForgotState.perform, emailSentAfter_settle]

/-- No run of the forgot-password screen changes `emailSent`. -/
theorem forgotRun_emailSent (acts : List ForgotAction) :
    ∀ s : ForgotState, (forgotRun s acts).emailSent = s.emailSent := by
  induction acts with
  | nil => intro s; rfl
  | cons a as ih =>
    intro s
    rw [forgotRun_cons, ih, forgotStep_emailSent]

/-- C15: on the forgot-password screen `emailSent` is false after every
sequence of email edits, submissions and settlements, successful or not, from
mount, so the rendering takes its form branch, never the 'sent' one; a
successful submission of a non-empty email with the provider loaded pushes
'/reset-password' with `params.email` the entered email. -/
theorem forgot_emailSent_stays_false (isLoaded : Bool) (acts : List ForgotAction)
    (email : String) (hemail : email ≠ "") :
    (forgotRun (ForgotState.mount isLoaded) acts).emailSent = false
    ∧ forgotRender (forgotRun (ForgotState.mount isLoaded) acts).emailSent = .form
    ∧ onRequestResetLink true email (.resolved ())
        = [.setLoading true, .call (.resetPasswordCreate email),
           .navigate .push "/reset-password" [("email", email)], .setLoading false]
    ∧ (forgotRun (ForgotState.mount true)
          [.changeEmail email, .pressSend, .settled (.resolved ())]).log
        = onRequestResetLink true email (.resolved ())
    ∧ (forgotRun (ForgotState.mount true)
          [.changeEmail email, .pressSend, .settled (.resolved ())]).emailSent = false := by
  have h := forgotRun_emailSent acts (ForgotState.mount isLoaded)
  have hmount : (ForgotState.mount isLoaded).emailSent = false := rfl
  refine ⟨by rw [h, hmount], by rw [h, hmount]; rfl, ?_, ?_, ?_⟩
  · simp [onRequestResetLink, truthy, hemail]
  · simp [forgotRun, forgotStep, ForgotState.mount, ForgotState.perform,
      onRequestResetLinkBegin, onRequestResetLinkSettle, onRequestResetLink, truthy, hemail,
      calls, loadingAfter]
  · rw [forgotRun_emailSent]
    rfl

/-- Witness for C15: a failed submission, a corrected email, a successful one. -/
theorem forgot_emailSent_stays_false_witness :
    (forgotRun (ForgotState.mount true)
        [.changeEmail "a@b", .pressSend, .settled (.rejected ⟨none, none⟩),
         .changeEmail "a@b.c", .pressSend, .settled (.resolved ())]).emailSent = false
    ∧ onRequestResetLink true "a@b.c" (.resolved ())
        = [.setLoading true, .call (.resetPasswordCreate "a@b.c"),
           .navigate .push "/reset-password" [("email", "a@b.c")], .setLoading false] :=
  have h := forgot_emailSent_stays_false true
    [.changeEmail "a@b", .pressSend, .settled (.rejected ⟨none, none⟩),
     .changeEmail "a@b.c", .pressSend, .settled (.resolved ())] "a@b.c" (by decide)
  ⟨h.1, h.2.2.1⟩

/-- C16: in `onResetPassword` with inputs that pass the three checks and the
provider loaded, the handler calls `resetPassword.attemptResetPassword` with
exactly the entered code and the new password.  When the call resolves,
`passwordReset` becomes true, exactly one alert ('Success', 'Your password has
been reset successfully') is shown and exactly one delayed action is scheduled,
after 2000 milliseconds, a `router.replace('/(auth)/sign-in')`; the handler
itself issues no navigation.  When the call rejects, nothing is scheduled,
nothing is navigated and `passwordReset` keeps its value. -/
theorem reset_success_schedules_redirect (code newPassword : String)
    (hc : code ≠ "") (hn : 8 ≤ jsLength newPassword) (err : JSError) (b : Bool) :
    onResetPassword true code newPassword newPassword (.resolved ())
        = [.setLoading true, .call (.attemptResetPassword code newPassword),
           .setPasswordReset true,
           .alert "Success" "Your password has been reset successfully",
           .setTimeout 2000 .replace "/(auth)/sign-in", .setLoading false]
    ∧ calls (onResetPassword true code newPassword newPassword (.resolved ()))
        = [.attemptResetPassword code newPassword]
    ∧ passwordResetAfter b (onResetPassword true code newPassword newPassword (.resolved ()))
        = true
    ∧ alerts (onResetPassword true code newPassword newPassword (.resolved ()))
        = [("Success", "Your password has been reset successfully")]
    ∧ timeouts (onResetPassword true code newPassword newPassword (.resolved ()))
        = [(2000, .replace, "/(auth)/sign-in")]
    ∧ navigations (onResetPassword true code newPassword newPassword (.resolved ())) = []
    ∧ calls (onResetPassword true code newPassword newPassword (.rejected err))
        = [.attemptResetPassword code newPassword]
    ∧ timeouts (onResetPassword true code newPassword newPassword (.rejected err)) = []
    ∧ navigations (onResetPassword true code newPassword newPassword (.rejected err)) = []
    ∧ passwordResetAfter b (onResetPassword true code newPassword newPassword (.rejected err))
        = b := by
  have hnp := ne_empty_of_jsLength newPassword hn
  have hn' : ¬ jsLength newPassword < 8 := by omega
  simp [onResetPassword, onResetPasswordCatch, truthy, hc, hnp, hn', calls, alerts, timeouts,
    navigations, passwordResetAfter]

/-- Witness for C16: the code 123456 and a new password of eight characters. -/
theorem reset_success_schedules_redirect_witness :
    timeouts (onResetPassword true "123456" "12345678" "12345678" (.resolved ()))
      = [(2000, .replace, "/(auth)/sign-in")] :=
  (reset_success_schedules_redirect "123456" "12345678" (by decide) (by decide)
    ⟨none, none⟩ false).2.2.2.2.1

/-! ### Cross-screen behaviour -/

/-- C17: after a press, five interval fires and a rejected resend call, the
control is enabled with the counter at 25, not 30; the cooldown the next press
triggers then ends with the 25th fire although its resend call succeeds. -/
theorem failed_resend_leaves_counter_short :
    (run (VerifyState.mount true)
        (.pressResend :: (List.replicate 5 .tick
          ++ [.resendSettled (.rejected ⟨none, none⟩)]))).resendDisabled = false
    ∧ (run (VerifyState.mount true)
        (.pressResend :: (List.replicate 5 .tick
          ++ [.resendSettled (.rejected ⟨none, none⟩)]))).countdown = 25
    ∧ (run (VerifyState.mount true)
        (.pressResend :: (List.replicate 5 .tick
          ++ [.resendSettled (.rejected ⟨none, none⟩), .pressResend,
              .resendSettled (.resolved ())]
          ++ List.replicate 24 .tick))).resendDisabled = true
    ∧ (run (VerifyState.mount true)
        (.pressResend :: (List.replicate 5 .tick
          ++ [.resendSettled (.rejected ⟨none, none⟩), .pressResend,
              .resendSettled (.resolved ())]
          ++ List.replicate 25 .tick))).resendDisabled = false := by
  decide

/-- C18: when `signIn.create`, or `signUp.attemptEmailAddressVerification`,
resolves without a `createdSessionId` and `setActive` resolves, `onSignInPress`
and `onVerifyPress` pass the missing id to `setActive` and navigate all the
same, where the OAuth handlers of both screens, given a result without a
`createdSessionId`, call no `setActive` and navigate nowhere. -/
theorem password_paths_navigate_without_session :
    calls (onSignInPress "a@b.c" "hunter22" (.resolved ⟨none⟩) (.resolved ()))
        = [.signInCreate "a@b.c" "hunter22", .setActive none]
    ∧ navigations (onSignInPress "a@b.c" "hunter22" (.resolved ⟨none⟩) (.resolved ()))
        = [(.replace, "/(tabs)/home", [])]
    ∧ calls (onVerifyPress true "123456" (.resolved ⟨none⟩) (.resolved ()))
        = [.attemptEmailAddressVerification "123456", .setActive none]
    ∧ navigations (onVerifyPress true "123456" (.resolved ⟨none⟩) (.resolved ()))
        = [(.replace, "/(app)", [])]
    ∧ navigations (handleGoogleSignIn false (.resolved ⟨none, false⟩) (.resolved ())) = []
    ∧ navigations (handleAppleSignIn false (.resolved ⟨none, false⟩) (.resolved ())) = []
    ∧ navigations (onSelectAuth .google (.resolved ⟨none, false⟩) (.resolved ())) = []
    ∧ navigations (onSelectAuth .apple (.resolved ⟨none, false⟩) (.resolved ())) = [] := by
  refine ⟨?_, ?_, ?_, ?_, ?_, ?_, ?_, ?_⟩ <;> decide

/-- C19: after a successful verification `onVerifyPress` replaces to '/(app)',
whose group '(app)' is not among the screens the root layout registers, where
password sign-in and the OAuth handlers of both screens replace to
'/(tabs)/home', whose group '(tabs)' is registered. -/
theorem verify_success_targets_unregistered_route :
    navigations (onVerifyPress true "123456" (.resolved ⟨some "sess_1"⟩) (.resolved ()))
        = [(.replace, "/(app)", [])]
    ∧ firstSegment "/(app)" = "(app)"
    ∧ firstSegment "/(app)" ∉ registeredScreens
    ∧ navigations (onSignInPress "a@b.c" "hunter22" (.resolved ⟨some "sess_1"⟩) (.resolved ()))
        = [(.replace, "/(tabs)/home", [])]
    ∧ navigations (handleGoogleSignIn false (.resolved ⟨some "sess_1", false⟩) (.resolved ()))
        = [(.replace, "/(tabs)/home", [])]
    ∧ navigations (handleAppleSignIn false (.resolved ⟨some "sess_1", false⟩) (.resolved ()))
        = [(.replace, "/(tabs)/home", [])]
    ∧ navigations (onSelectAuth .google (.resolved ⟨some "sess_1", false⟩) (.resolved ()))
        = [(.replace, "/(tabs)/home", [])]
    ∧ navigations (onSelectAuth .apple (.resolved ⟨some "sess_1", false⟩) (.resolved ()))
        = [(.replace, "/(tabs)/home", [])]
    ∧ firstSegment "/(tabs)/home" ∈ registeredScreens
    ∧ "/(app)" ≠ "/(tabs)/home" := by
  refine ⟨?_, ?_, ?_, ?_, ?_, ?_, ?_, ?_, ?_, ?_⟩ <;> decide

/-- C20: for every pair of session flags, the sign-in screen's mount effect
navigates exactly when both are true and `TabsLayout`'s effect navigates
exactly when the session is loaded and not signed in, so the two never
navigate for the same pair; with the session not loaded neither navigates. -/
theorem session_redirects_exclusive (loaded signedIn : Bool) :
    (navigations (signInRedirectEffect loaded signedIn) ≠ []
        ↔ (loaded = true ∧ signedIn = true))
    ∧ (navigations (tabsLayoutEffect loaded signedIn) ≠ []
        ↔ (loaded = true ∧ signedIn = false))
    ∧ ¬ (navigations (signInRedirectEffect loaded signedIn) ≠ []
        ∧ navigations (tabsLayoutEffect loaded signedIn) ≠ [])
    ∧ navigations (signInRedirectEffect false signedIn) = []
    ∧ navigations (tabsLayoutEffect false signedIn) = [] := by
  cases loaded <;> cases signedIn <;> refine ⟨?_, ?_, ?_, ?_, ?_⟩ <;> decide

/-! ### Bounds of the counter -/

/-- One step keeps the counter between 1 and 30. -/
theorem step_countdown_bounds (s : VerifyState) (a : VerifyAction)
    (hlo : 1 ≤ s.countdown) (hhi : s.countdown ≤ 30) :
    1 ≤ (step s a).countdown ∧ (step s a).countdown ≤ 30 := by
  cases a with
  | pressResend =>
    simp only [step]
    split
    · exact ⟨hlo, hhi⟩
    · split
      · exact ⟨hlo, hhi⟩
      · exact ⟨hlo, hhi⟩
  | tick =>
    simp only [step, tick]
    split
    · exact ⟨hlo, hhi⟩
    · split
      · constructor <;> simp only <;> omega
      · constructor <;> simp only <;> omega
  | resendSettled prepare =>
    simp only [step]
    split
    · exact ⟨hlo, hhi⟩
    · exact ⟨hlo, hhi⟩

/-- Every run keeps the counter between 1 and 30. -/
theorem run_countdown_bounds (acts : List VerifyAction) :
    ∀ s : VerifyState, 1 ≤ s.countdown → s.countdown ≤ 30 →
      1 ≤ (run s acts).countdown ∧ (run s acts).countdown ≤ 30 := by
  induction acts with
  | nil => intro s hlo hhi; exact ⟨hlo, hhi⟩
  | cons a as ih =>
    intro s hlo hhi
    have h := step_countdown_bounds s a hlo hhi
    rw [run_cons]
    exact ih (step s a) h.1 h.2

/-- C21: on the verification screen, after every sequence of resend presses,
interval fires and settlements of resend calls, successful or failed, from
mount, the counter is at least 1 and at most 30, so it is never 0 and the
label of the resend control never reads 'Resend in 0s'. -/
theorem countdown_between_one_and_thirty (isLoaded : Bool) (acts : List VerifyAction) :
    1 ≤ (run (VerifyState.mount isLoaded) acts).countdown
    ∧ (run (VerifyState.mount isLoaded) acts).countdown ≤ 30
    ∧ (run (VerifyState.mount isLoaded) acts).countdown ≠ 0
    ∧ resendLabel (run (VerifyState.mount isLoaded) acts) ≠ .resendIn 0 := by
  have hmount : (VerifyState.mount isLoaded).countdown = 30 := rfl
  have h := run_countdown_bounds acts (VerifyState.mount isLoaded)
    (by rw [hmount]; omega) (by rw [hmount])
  refine ⟨h.1, h.2, by omega, ?_⟩
  unfold resendLabel
  split
  · intro heq
    injection heq with h0
    omega
  · intro heq
    cases heq

end ExpoClerk
